import Mathlib

/-!
Verification of the collision engine of `src/modules/collision.rs`.

The source computes in `f32`; the embedding computes in exact rationals.
The three non-rational primitives the source uses (`cos`, `sin`, `sqrt`)
are supplied by an explicit oracle structure `FloatOps`; theorems
quantified over every oracle hold in particular for the real functions,
and concrete instantiations record, in their doc comments, that the
oracle agrees with the f32 primitives at every angle actually evaluated.
Rust casts (`as usize`), the truncating float remainder `%`, and the
exact f32 constants (`std::f32::consts::PI`, `f32::MAX`, `f32::MIN`)
are modelled explicitly.
-/

namespace Collision

/-- 2D vector of exact rationals, standing in for `macroquad::Vec2`. -/
structure V2 where
  x : ℚ
  y : ℚ
deriving DecidableEq

/-- Oracle for the floating-point `cos`, `sin` and `sqrt` primitives. -/
structure FloatOps where
  cos : ℚ → ℚ
  sin : ℚ → ℚ
  sqrt : ℚ → ℚ

/-- A collidable entity: the five accessors of the `Collidable` trait
(`pos`, `size`, `texture_size`, `get_mask`, `get_angle`).  The mask is a
packed byte buffer, one bit per texel, row-major, MSB first. -/
structure Ent where
  pos : V2
  size : V2
  texture_size : V2
  mask : Option (List ℕ)
  angle : ℚ
deriving DecidableEq

/-- Truncation toward zero, as used by Rust float-to-integer casts and
by the float remainder operator. -/
def ratTrunc (q : ℚ) : ℤ := if 0 ≤ q then ⌊q⌋ else ⌈q⌉

/-- Rust `as usize` on an f32: negative values saturate to 0, others
truncate toward zero (saturation at `usize::MAX` is irrelevant at the
magnitudes the engine produces). -/
def toUsize (q : ℚ) : ℕ := (⌊q⌋).toNat

/-- Rust `%` on f32: remainder with the quotient truncated toward zero. -/
def fmod (q m : ℚ) : ℚ := q - m * (ratTrunc (q / m))

/-- The exact value of the f32 constant `std::f32::consts::PI`. -/
def PI32 : ℚ := 13176795 / 4194304

/-- The exact value of `f32::MAX`. -/
def F32_MAX : ℚ := 2 ^ 128 - 2 ^ 104

/-- The exact value of `f32::MIN`. -/
def F32_MIN : ℚ := -(2 ^ 128 - 2 ^ 104)

/-- `calc_tex_coord` (collision.rs lines 95-109): map a world point into
integer texel coordinates, clamping the normalized coordinate into
`[0, 0.999]` and clamping degenerate sizes up to `0.001`. -/
def calc_tex_coord (point pos size tex_size : V2) : ℕ × ℕ :=
  let safe_size_x := if size.x < 1/1000 then (1:ℚ)/1000 else size.x
  let safe_size_y := if size.y < 1/1000 then (1:ℚ)/1000 else size.y
  let norm_x := (point.x - pos.x) / safe_size_x
  let norm_y := (point.y - pos.y) / safe_size_y
  let clamped_x := min (max norm_x 0) (999/1000)
  let clamped_y := min (max norm_y 0) (999/1000)
  (toUsize (clamped_x * tex_size.x), toUsize (clamped_y * tex_size.y))

/-- `is_mask_bit_set` (collision.rs lines 113-121): `none` when the byte
index `idx / 8` is outside the mask, otherwise bit `7 - idx % 8` of that
byte (MSB first). -/
def is_mask_bit_set (mask : List ℕ) (idx : ℕ) : Option Bool :=
  if mask.length ≤ idx / 8 then none
  else
    let mask_byte := mask.getD (idx / 8) 0
    let mask_bit := (mask_byte >>> (7 - idx % 8)) &&& 1
    some (mask_bit == 1)

/-- `is_point_in_bounds` (collision.rs lines 125-128): half-open
containment test. -/
def is_point_in_bounds (point pos size : V2) : Bool :=
  decide (point.x ≥ pos.x) && decide (point.x < pos.x + size.x) &&
  decide (point.y ≥ pos.y) && decide (point.y < pos.y + size.y)

/-- Angle normalization into `(-π, π]` — the inner block of
`rotate_point` (collision.rs lines 688-696). -/
def normalize_angle (angle : ℚ) : ℚ :=
  let a := fmod angle (2 * PI32)
  if a > PI32 then a - 2 * PI32
  else if a < -PI32 then a + 2 * PI32
  else a

/-- `rotate_point` (collision.rs lines 678-708): exact identity at angle
0, otherwise the standard 2D rotation about `center` applied to the
normalized angle. -/
def rotate_point (F : FloatOps) (point center : V2) (angle : ℚ) : V2 :=
  if angle = 0 then point
  else
    let translated : V2 := ⟨point.x - center.x, point.y - center.y⟩
    let cos_angle := F.cos (normalize_angle angle)
    let sin_angle := F.sin (normalize_angle angle)
    let rotated_x := translated.x * cos_angle - translated.y * sin_angle
    let rotated_y := translated.x * sin_angle + translated.y * cos_angle
    ⟨rotated_x + center.x, rotated_y + center.y⟩

/-- `calculate_rotated_bounding_box` (collision.rs lines 711-746):
identity at angle 0, otherwise the axis-aligned envelope of the four
rotated corners inflated by a 2% margin on each side. -/
def calculate_rotated_bounding_box (F : FloatOps) (pos size : V2) (angle : ℚ) :
    V2 × V2 :=
  if angle = 0 then (pos, size)
  else
    let center : V2 := ⟨pos.x + size.x / 2, pos.y + size.y / 2⟩
    let top_left := pos
    let top_right : V2 := ⟨pos.x + size.x, pos.y⟩
    let bottom_left : V2 := ⟨pos.x, pos.y + size.y⟩
    let bottom_right : V2 := ⟨pos.x + size.x, pos.y + size.y⟩
    let rotated_tl := rotate_point F top_left center angle
    let rotated_tr := rotate_point F top_right center angle
    let rotated_bl := rotate_point F bottom_left center angle
    let rotated_br := rotate_point F bottom_right center angle
    let min_x := min (min (min rotated_tl.x rotated_tr.x) rotated_bl.x) rotated_br.x
    let min_y := min (min (min rotated_tl.y rotated_tr.y) rotated_bl.y) rotated_br.y
    let max_x := max (max (max rotated_tl.x rotated_tr.x) rotated_bl.x) rotated_br.x
    let max_y := max (max (max rotated_tl.y rotated_tr.y) rotated_bl.y) rotated_br.y
    let margin_x := size.x * (2/100)
    let margin_y := size.y * (2/100)
    (⟨min_x - margin_x, min_y - margin_y⟩,
     ⟨max_x - min_x + 2 * margin_x, max_y - min_y + 2 * margin_y⟩)

/-- The four world-space corners of a rotated rectangle, in the order
the SAT routine builds them (collision.rs lines 597-609). -/
def rectCorners (F : FloatOps) (pos size : V2) (angle : ℚ) : List V2 :=
  let center : V2 := ⟨pos.x + size.x / 2, pos.y + size.y / 2⟩
  let half_width := size.x / 2
  let half_height := size.y / 2
  [rotate_point F ⟨center.x - half_width, center.y - half_height⟩ center angle,
   rotate_point F ⟨center.x + half_width, center.y - half_height⟩ center angle,
   rotate_point F ⟨center.x + half_width, center.y + half_height⟩ center angle,
   rotate_point F ⟨center.x - half_width, center.y + half_height⟩ center angle]

/-- The four cyclic edge vectors of a corner list
(collision.rs lines 612-624). -/
def edgesOf (corners : List V2) : List V2 :=
  (corners.rotate 1).zipWith (fun a b => V2.mk (a.x - b.x) (a.y - b.y)) corners

/-- The candidate separating axis contributed by one edge: the unit
perpendicular, skipped when the edge length is at most `0.0001`
(collision.rs lines 628-645). -/
def axisOfEdge (F : FloatOps) (edge : V2) : List V2 :=
  let perp : V2 := ⟨-edge.y, edge.x⟩
  let length := F.sqrt (perp.x * perp.x + perp.y * perp.y)
  if length > 1/10000 then [⟨perp.x / length, perp.y / length⟩] else []

/-- All candidate axes contributed by one rectangle's corners. -/
def axesFrom (F : FloatOps) (corners : List V2) : List V2 :=
  (edgesOf corners).flatMap (axisOfEdge F)

/-- Minimum projection of a corner list onto an axis, folded from
`f32::MAX` exactly as the source's loop does (collision.rs 650-665). -/
def projMin (axis : V2) (corners : List V2) : ℚ :=
  corners.foldl (fun m c => min m (c.x * axis.x + c.y * axis.y)) F32_MAX

/-- Maximum projection of a corner list onto an axis, folded from
`f32::MIN`. -/
def projMax (axis : V2) (corners : List V2) : ℚ :=
  corners.foldl (fun m c => max m (c.x * axis.x + c.y * axis.y)) F32_MIN

/-- The per-axis gap test of the SAT loop (collision.rs line 668). -/
def hasGap (axis : V2) (corners1 corners2 : List V2) : Bool :=
  decide (projMin axis corners1 > projMax axis corners2) ||
  decide (projMin axis corners2 > projMax axis corners1)

/-- `check_rotated_rectangle_collision` (collision.rs lines 569-675):
plain strict AABB test when both angles are below the 0.05 rad
threshold, otherwise SAT over the up-to-8 edge normals. -/
def check_rotated_rectangle_collision (F : FloatOps)
    (pos1 size1 : V2) (angle1 : ℚ) (pos2 size2 : V2) (angle2 : ℚ) : Bool :=
  if |angle1| < 5/100 ∧ |angle2| < 5/100 then
    decide (pos1.x < pos2.x + size2.x) &&
    decide (pos1.x + size1.x > pos2.x) &&
    decide (pos1.y < pos2.y + size2.y) &&
    decide (pos1.y + size1.y > pos2.y)
  else
    let corners1 := rectCorners F pos1 size1 angle1
    let corners2 := rectCorners F pos2 size2 angle2
    let axes := axesFrom F corners1 ++ axesFrom F corners2
    axes.all (fun axis => !hasGap axis corners1 corners2)

/-- `(0..n).step_by(s)` for a stride `s ≥ 1` (`Iterator::step_by`
never panics for nonzero steps and yields the multiples of `s`
below `n`). -/
def strided (n s : ℕ) : List ℕ := (List.range n).filter (fun i => i % s == 0)

/-- The data-parallel scan of the native (rayon) branches:
`(0..h as usize).into_par_iter().step_by(s).any(|y| (0..w as usize)...)`.
`ParallelIterator::any` is the existential over the iterated index set,
which is what `List.any` computes. -/
def parScan (w h : ℚ) (s : ℕ) (P : ℕ → ℕ → Bool) : Bool :=
  (strided (toUsize h) s).any (fun y => (strided (toUsize w) s).any (fun x => P x y))

/-- One sequential early-return loop:
`for i in l { if p i { return true } }; false`. -/
def seqAny (l : List ℕ) (p : ℕ → Bool) : Bool :=
  match l with
  | [] => false
  | x :: xs => if p x then true else seqAny xs p

/-- The sequential scan of the wasm32 branches: nested `for` loops
returning at the first sampled point that satisfies the test. -/
def seqScan (w h : ℚ) (s : ℕ) (P : ℕ → ℕ → Bool) : Bool :=
  seqAny (strided (toUsize h) s) (fun y => seqAny (strided (toUsize w) s) (fun x => P x y))

/-- Per-point test of the both-masked unrotated scan in
`check_collision` (collision.rs lines 214-229, identical in the wasm32
branch lines 239-254). -/
def bothMaskedTest (pos1 size1 tex1 : V2) (mask1 : List ℕ)
    (pos2 size2 tex2 : V2) (mask2 : List ℕ) (ox oy : ℚ) (x y : ℕ) : Bool :=
  let world_point : V2 := ⟨ox + x, oy + y⟩
  let t1 := calc_tex_coord world_point pos1 size1 tex1
  let t2 := calc_tex_coord world_point pos2 size2 tex2
  let idx1 := t1.2 * toUsize tex1.x + t1.1
  let idx2 := t2.2 * toUsize tex2.x + t2.1
  ((is_mask_bit_set mask1 idx1).getD false) && ((is_mask_bit_set mask2 idx2).getD false)

/-- Per-point test of `check_one_masked_collision`
(collision.rs lines 283-298, identical in the wasm32 branch). -/
def oneMaskedTest (masked_pos masked_size masked_tex : V2) (mask : List ℕ)
    (other_pos other_size : V2) (ox oy : ℚ) (x y : ℕ) : Bool :=
  let world_point : V2 := ⟨ox + x, oy + y⟩
  let t := calc_tex_coord world_point masked_pos masked_size masked_tex
  let idx := t.2 * toUsize masked_tex.x + t.1
  let is_opq := (is_mask_bit_set mask idx).getD false
  let in_other_bounds := is_point_in_bounds world_point other_pos other_size
  is_opq && in_other_bounds

/-- Per-point test of `check_one_rotated_masked_collision`
(collision.rs lines 356-381; the wasm32 branch replaces the early
`return false` with `continue`, with the same per-point value). -/
def oneRotatedMaskedTest (F : FloatOps) (masked_pos masked_size masked_tex : V2)
    (mask : List ℕ) (masked_angle : ℚ) (masked_center : V2)
    (other_pos other_size : V2) (other_angle : ℚ) (other_center : V2)
    (ox oy : ℚ) (x y : ℕ) : Bool :=
  let world_point : V2 := ⟨ox + x, oy + y⟩
  let local_masked_point := rotate_point F world_point masked_center (-masked_angle)
  if !is_point_in_bounds local_masked_point masked_pos masked_size then false
  else
    let t := calc_tex_coord local_masked_point masked_pos masked_size masked_tex
    let idx := t.2 * toUsize masked_tex.x + t.1
    let is_opq := (is_mask_bit_set mask idx).getD false
    if !is_opq then false
    else
      let local_other_point := rotate_point F world_point other_center (-other_angle)
      let in_other_bounds := is_point_in_bounds local_other_point other_pos other_size
      is_opq && in_other_bounds

/-- Per-point test of the both-masked branch of
`check_rotated_pixel_collision` (collision.rs lines 492-520). -/
def rotatedBothMaskedTest (F : FloatOps) (pos1 size1 tex1 : V2) (mask1 : List ℕ)
    (angle1 : ℚ) (center1 : V2) (pos2 size2 tex2 : V2) (mask2 : List ℕ)
    (angle2 : ℚ) (center2 : V2) (ox oy : ℚ) (x y : ℕ) : Bool :=
  let world_point : V2 := ⟨ox + x, oy + y⟩
  let local_point1 := rotate_point F world_point center1 (-angle1)
  let local_point2 := rotate_point F world_point center2 (-angle2)
  if !is_point_in_bounds local_point1 pos1 size1 ||
     !is_point_in_bounds local_point2 pos2 size2 then false
  else
    let t1 := calc_tex_coord local_point1 pos1 size1 tex1
    let t2 := calc_tex_coord local_point2 pos2 size2 tex2
    let idx1 := t1.2 * toUsize tex1.x + t1.1
    let idx2 := t2.2 * toUsize tex2.x + t2.1
    ((is_mask_bit_set mask1 idx1).getD false) && ((is_mask_bit_set mask2 idx2).getD false)

/-- `check_one_masked_collision` (collision.rs lines 265-329), native
(data-parallel) form. -/
def check_one_masked_collision (masked_pos masked_size masked_tex : V2)
    (mask : List ℕ) (other_pos other_size : V2) (ox oy ow oh : ℚ) (s : ℕ) : Bool :=
  parScan ow oh s
    (oneMaskedTest masked_pos masked_size masked_tex mask other_pos other_size ox oy)

/-- `check_one_masked_collision`, wasm32 (sequential) form. -/
def check_one_masked_collision_seq (masked_pos masked_size masked_tex : V2)
    (mask : List ℕ) (other_pos other_size : V2) (ox oy ow oh : ℚ) (s : ℕ) : Bool :=
  seqScan ow oh s
    (oneMaskedTest masked_pos masked_size masked_tex mask other_pos other_size ox oy)

/-- `check_one_rotated_masked_collision` (collision.rs lines 333-424),
native (data-parallel) form. -/
def check_one_rotated_masked_collision (F : FloatOps)
    (masked_pos masked_size masked_tex : V2) (mask : List ℕ)
    (masked_angle : ℚ) (masked_center : V2)
    (other_pos other_size : V2) (other_angle : ℚ) (other_center : V2)
    (ox oy ow oh : ℚ) (s : ℕ) : Bool :=
  parScan ow oh s
    (oneRotatedMaskedTest F masked_pos masked_size masked_tex mask masked_angle
      masked_center other_pos other_size other_angle other_center ox oy)

/-- `check_one_rotated_masked_collision`, wasm32 (sequential) form. -/
def check_one_rotated_masked_collision_seq (F : FloatOps)
    (masked_pos masked_size masked_tex : V2) (mask : List ℕ)
    (masked_angle : ℚ) (masked_center : V2)
    (other_pos other_size : V2) (other_angle : ℚ) (other_center : V2)
    (ox oy ow oh : ℚ) (s : ℕ) : Bool :=
  seqScan ow oh s
    (oneRotatedMaskedTest F masked_pos masked_size masked_tex mask masked_angle
      masked_center other_pos other_size other_angle other_center ox oy)

/-- The both-masked scan of `check_rotated_pixel_collision`
(collision.rs lines 487-523), native form. -/
def rotatedBothMaskedScan (F : FloatOps) (pos1 size1 tex1 : V2) (mask1 : List ℕ)
    (angle1 : ℚ) (center1 : V2) (pos2 size2 tex2 : V2) (mask2 : List ℕ)
    (angle2 : ℚ) (center2 : V2) (ox oy ow oh : ℚ) (s : ℕ) : Bool :=
  parScan ow oh s
    (rotatedBothMaskedTest F pos1 size1 tex1 mask1 angle1 center1
      pos2 size2 tex2 mask2 angle2 center2 ox oy)

/-- The both-masked scan of `check_rotated_pixel_collision`, wasm32
(sequential) form. -/
def rotatedBothMaskedScan_seq (F : FloatOps) (pos1 size1 tex1 : V2) (mask1 : List ℕ)
    (angle1 : ℚ) (center1 : V2) (pos2 size2 tex2 : V2) (mask2 : List ℕ)
    (angle2 : ℚ) (center2 : V2) (ox oy ow oh : ℚ) (s : ℕ) : Bool :=
  seqScan ow oh s
    (rotatedBothMaskedTest F pos1 size1 tex1 mask1 angle1 center1
      pos2 size2 tex2 mask2 angle2 center2 ox oy)

/-- The both-masked scan in the body of `check_collision`
(collision.rs lines 209-260), native form. -/
def bothMaskedScan (pos1 size1 tex1 : V2) (mask1 : List ℕ)
    (pos2 size2 tex2 : V2) (mask2 : List ℕ) (ox oy ow oh : ℚ) (s : ℕ) : Bool :=
  parScan ow oh s (bothMaskedTest pos1 size1 tex1 mask1 pos2 size2 tex2 mask2 ox oy)

/-- The both-masked scan in the body of `check_collision`, wasm32
(sequential) form. -/
def bothMaskedScan_seq (pos1 size1 tex1 : V2) (mask1 : List ℕ)
    (pos2 size2 tex2 : V2) (mask2 : List ℕ) (ox oy ow oh : ℚ) (s : ℕ) : Bool :=
  seqScan ow oh s (bothMaskedTest pos1 size1 tex1 mask1 pos2 size2 tex2 mask2 ox oy)

/-- Center of an entity, as computed in `check_rotated_pixel_collision`
(collision.rs lines 445 and 452). -/
def entCenter (o : Ent) : V2 := ⟨o.pos.x + o.size.x / 2, o.pos.y + o.size.y / 2⟩

/-- `check_rotated_pixel_collision` (collision.rs lines 427-565):
dispatch on mask availability for the rotation-aware scans.  The
`none, none` arm is unreachable from `check_collision`, which handles
the no-mask case before calling this function; the source would reach
the same SAT call through its explicit `is_none` test. -/
def check_rotated_pixel_collision (F : FloatOps) (o1 o2 : Ent)
    (ox oy ow oh : ℚ) (s : ℕ) : Bool :=
  match o1.mask, o2.mask with
  | some m1, none =>
    check_one_rotated_masked_collision F o1.pos o1.size o1.texture_size m1
      o1.angle (entCenter o1) o2.pos o2.size o2.angle (entCenter o2) ox oy ow oh s
  | none, some m2 =>
    check_one_rotated_masked_collision F o2.pos o2.size o2.texture_size m2
      o2.angle (entCenter o2) o1.pos o1.size o1.angle (entCenter o1) ox oy ow oh s
  | none, none =>
    check_rotated_rectangle_collision F o1.pos o1.size o1.angle o2.pos o2.size o2.angle
  | some m1, some m2 =>
    rotatedBothMaskedScan F o1.pos o1.size o1.texture_size m1 o1.angle (entCenter o1)
      o2.pos o2.size o2.texture_size m2 o2.angle (entCenter o2) ox oy ow oh s

/-- The rotated bounding box of an entity (collision.rs lines 149-150). -/
def bbox (F : FloatOps) (o : Ent) : V2 × V2 :=
  calculate_rotated_bounding_box F o.pos o.size o.angle

/-- `overlap_x` of `check_collision` (collision.rs line 153). -/
def overlapX (F : FloatOps) (o1 o2 : Ent) : ℚ :=
  max (bbox F o1).1.x (bbox F o2).1.x

/-- `overlap_y` of `check_collision` (collision.rs line 154). -/
def overlapY (F : FloatOps) (o1 o2 : Ent) : ℚ :=
  max (bbox F o1).1.y (bbox F o2).1.y

/-- `overlap_w` of `check_collision` (collision.rs line 155). -/
def overlapW (F : FloatOps) (o1 o2 : Ent) : ℚ :=
  min ((bbox F o1).1.x + (bbox F o1).2.x) ((bbox F o2).1.x + (bbox F o2).2.x) -
    overlapX F o1 o2

/-- `overlap_h` of `check_collision` (collision.rs line 156). -/
def overlapH (F : FloatOps) (o1 o2 : Ent) : ℚ :=
  min ((bbox F o1).1.y + (bbox F o1).2.y) ((bbox F o2).1.y + (bbox F o2).2.y) -
    overlapY F o1 o2

/-- `check_collision` (collision.rs lines 131-261): the dispatcher.
The final `none, none` match arm is unreachable (that case returned in
the second branch already). -/
def check_collision (F : FloatOps) (o1 o2 : Ent) (skip_pixels : ℕ) : Bool :=
  let ox := overlapX F o1 o2
  let oy := overlapY F o1 o2
  let ow := overlapW F o1 o2
  let oh := overlapH F o1 o2
  if ow ≤ 0 ∨ oh ≤ 0 then false
  else if o1.mask = none ∧ o2.mask = none then
    if o1.angle ≠ 0 ∨ o2.angle ≠ 0 then
      check_rotated_rectangle_collision F o1.pos o1.size o1.angle o2.pos o2.size o2.angle
    else true
  else if o1.angle ≠ 0 ∨ o2.angle ≠ 0 then
    check_rotated_pixel_collision F o1 o2 ox oy ow oh skip_pixels
  else
    match o1.mask, o2.mask with
    | some m1, none =>
      check_one_masked_collision o1.pos o1.size o1.texture_size m1
        o2.pos o2.size ox oy ow oh skip_pixels
    | none, some m2 =>
      check_one_masked_collision o2.pos o2.size o2.texture_size m2
        o1.pos o1.size ox oy ow oh skip_pixels
    | some m1, some m2 =>
      bothMaskedScan o1.pos o1.size o1.texture_size m1
        o2.pos o2.size o2.texture_size m2 ox oy ow oh skip_pixels
    | none, none => false

/-- `parScanOpt` models the Rust panic behaviour of the scan loops:
`Iterator::step_by` asserts a nonzero step when the adapter is built,
before any element is produced, so a zero stride aborts every
pixel-scanning path (`none`) even over an empty region; a nonzero
stride always yields the boolean of the scan. -/
def parScanOpt (w h : ℚ) (s : ℕ) (P : ℕ → ℕ → Bool) : Option Bool :=
  if s = 0 then none else some (parScan w h s P)

/-- `check_one_masked_collision` with the stride panic made explicit. -/
def check_one_masked_collisionOpt (masked_pos masked_size masked_tex : V2)
    (mask : List ℕ) (other_pos other_size : V2) (ox oy ow oh : ℚ) (s : ℕ) :
    Option Bool :=
  parScanOpt ow oh s
    (oneMaskedTest masked_pos masked_size masked_tex mask other_pos other_size ox oy)

/-- `check_one_rotated_masked_collision` with the stride panic made
explicit. -/
def check_one_rotated_masked_collisionOpt (F : FloatOps)
    (masked_pos masked_size masked_tex : V2) (mask : List ℕ)
    (masked_angle : ℚ) (masked_center : V2)
    (other_pos other_size : V2) (other_angle : ℚ) (other_center : V2)
    (ox oy ow oh : ℚ) (s : ℕ) : Option Bool :=
  parScanOpt ow oh s
    (oneRotatedMaskedTest F masked_pos masked_size masked_tex mask masked_angle
      masked_center other_pos other_size other_angle other_center ox oy)

/-- `check_rotated_pixel_collision` with the stride panic made explicit;
the SAT arm performs no pixel scan and never aborts. -/
def check_rotated_pixel_collisionOpt (F : FloatOps) (o1 o2 : Ent)
    (ox oy ow oh : ℚ) (s : ℕ) : Option Bool :=
  match o1.mask, o2.mask with
  | some m1, none =>
    check_one_rotated_masked_collisionOpt F o1.pos o1.size o1.texture_size m1
      o1.angle (entCenter o1) o2.pos o2.size o2.angle (entCenter o2) ox oy ow oh s
  | none, some m2 =>
    check_one_rotated_masked_collisionOpt F o2.pos o2.size o2.texture_size m2
      o2.angle (entCenter o2) o1.pos o1.size o1.angle (entCenter o1) ox oy ow oh s
  | none, none =>
    some (check_rotated_rectangle_collision F o1.pos o1.size o1.angle
      o2.pos o2.size o2.angle)
  | some m1, some m2 =>
    parScanOpt ow oh s
      (rotatedBothMaskedTest F o1.pos o1.size o1.texture_size m1 o1.angle
        (entCenter o1) o2.pos o2.size o2.texture_size m2 o2.angle (entCenter o2) ox oy)

/-- `check_collision` with the stride panic made explicit: branches that
reach a pixel scan abort on a zero stride, all others return their
boolean. -/
def check_collisionOpt (F : FloatOps) (o1 o2 : Ent) (skip_pixels : ℕ) :
    Option Bool :=
  let ox := overlapX F o1 o2
  let oy := overlapY F o1 o2
  let ow := overlapW F o1 o2
  let oh := overlapH F o1 o2
  if ow ≤ 0 ∨ oh ≤ 0 then some false
  else if o1.mask = none ∧ o2.mask = none then
    if o1.angle ≠ 0 ∨ o2.angle ≠ 0 then
      some (check_rotated_rectangle_collision F o1.pos o1.size o1.angle
        o2.pos o2.size o2.angle)
    else some true
  else if o1.angle ≠ 0 ∨ o2.angle ≠ 0 then
    check_rotated_pixel_collisionOpt F o1 o2 ox oy ow oh skip_pixels
  else
    match o1.mask, o2.mask with
    | some m1, none =>
      check_one_masked_collisionOpt o1.pos o1.size o1.texture_size m1
        o2.pos o2.size ox oy ow oh skip_pixels
    | none, some m2 =>
      check_one_masked_collisionOpt o2.pos o2.size o2.texture_size m2
        o1.pos o1.size ox oy ow oh skip_pixels
    | some m1, some m2 =>
      parScanOpt ow oh skip_pixels
        (bothMaskedTest o1.pos o1.size o1.texture_size m1
          o2.pos o2.size o2.texture_size m2 ox oy)
    | none, none => some false

/-- Oracle whose `cos` is constantly 1 and `sin` constantly 0.  Every
concrete theorem below that uses it evaluates trigonometry only at the
normalized angle 0, where the f32 primitives return exactly
`cosf(0.0) = 1.0` and `sinf(0.0) = 0.0`, so the oracle agrees exactly
with the source's arithmetic on those inputs. -/
def F0 : FloatOps := ⟨fun _ => 1, fun _ => 0, fun _ => 0⟩

/-- Oracle used at the single angle `0.01` rad: `cos` constantly
`0.99995` and `sin` constantly `0.01`, matching the f32 values
`cosf(0.01) = 0.99995…` and `sinf(0.01) = 0.0099998…` to within `2e-6`;
the concrete theorem using it leaves margins above `0.09` world units,
far beyond that error. -/
def F1 : FloatOps := ⟨fun _ => 19999/20000, fun _ => 1/100, fun _ => 0⟩

/-- Solid unrotated 10x10 square at the origin. -/
def entA : Ent := ⟨⟨0, 0⟩, ⟨10, 10⟩, ⟨10, 10⟩, none, 0⟩

/-- Solid unrotated 10x10 square at (5,5). -/
def entB : Ent := ⟨⟨5, 5⟩, ⟨10, 10⟩, ⟨10, 10⟩, none, 0⟩

/-- Solid 10x10 square at (10.1, 0) rotated by 0.01 rad: its raw
rectangle misses `entA` by 0.1 but its margin-inflated rotated bounding
box overlaps `entA`. -/
def cB : Ent := ⟨⟨101/10, 0⟩, ⟨10, 10⟩, ⟨10, 10⟩, none, 1/100⟩

/-- Masked unrotated 4x4 entity at the origin over a 4x4 texture whose
only opaque texel is (2,2): mask bytes `[0b00000000, 0b00100000]`. -/
def mA : Ent := ⟨⟨0, 0⟩, ⟨4, 4⟩, ⟨4, 4⟩, some [0, 32], 0⟩

/-- Solid unrotated 4x4 square at (-1,-1). -/
def mB : Ent := ⟨⟨-1, -1⟩, ⟨4, 4⟩, ⟨4, 4⟩, none, 0⟩

/-- Masked all-opaque 4x4 entity at the origin (mask bytes all ones). -/
def dA : Ent := ⟨⟨0, 0⟩, ⟨4, 4⟩, ⟨4, 4⟩, some [255, 255], 0⟩

/-- Masked all-opaque 4x4 entity at (100,100), disjoint from `dA`. -/
def dB : Ent := ⟨⟨100, 100⟩, ⟨4, 4⟩, ⟨4, 4⟩, some [255, 255], 0⟩

/-- Solid unrotated 4x4 square at (3.5, 0): overlaps `dA` in a strip of
width 0.5. -/
def tB : Ent := ⟨⟨7/2, 0⟩, ⟨4, 4⟩, ⟨4, 4⟩, none, 0⟩

end Collision

namespace Collision



theorem seqAny_eq_any (l : List ℕ) (p : ℕ → Bool) : seqAny l p = l.any p := by
  induction l with
  | nil => rfl
  | cons x xs ih => cases h : p x <;> simp [seqAny, h, ih]

theorem seqScan_eq_parScan (w h : ℚ) (s : ℕ) (P : ℕ → ℕ → Bool) :
    seqScan w h s P = parScan w h s P := by
  simp [seqScan, parScan, seqAny_eq_any]

theorem mem_strided_one {i n : ℕ} (s : ℕ) (h : i ∈ strided n s) : i ∈ strided n 1 := by
  simp only [strided, List.mem_filter] at h ⊢
  exact ⟨h.1, by simp [Nat.mod_one]⟩


theorem parScan_mono {w h : ℚ} {s : ℕ} {P : ℕ → ℕ → Bool}
    (hp : parScan w h s P = true) : parScan w h 1 P = true := by
  simp only [parScan, List.any_eq_true] at hp ⊢
  obtain ⟨y, hy, x, hx, hP⟩ := hp
  exact ⟨y, mem_strided_one s hy, x, mem_strided_one s hx, hP⟩

theorem toUsize_eq_zero {q : ℚ} (h1 : q < 1) : toUsize q = 0 := by
  unfold toUsize
  rw [Int.toNat_eq_zero]
  have h : ⌊q⌋ < 1 := by
    rw [Int.floor_lt]
    exact_mod_cast h1
  omega

theorem parScan_w_lt_one {w h : ℚ} {s : ℕ} {P : ℕ → ℕ → Bool} (hw : w < 1) :
    parScan w h s P = false := by
  simp [parScan, toUsize_eq_zero hw, strided]

theorem parScan_h_lt_one {w h : ℚ} {s : ℕ} {P : ℕ → ℕ → Bool} (hh : h < 1) :
    parScan w h s P = false := by
  simp [parScan, toUsize_eq_zero hh, strided]

theorem bbox_zero {F : FloatOps} {o : Ent} (h : o.angle = 0) : bbox F o = (o.pos, o.size) := by
  simp [bbox, calculate_rotated_bounding_box, h]

theorem overlapW_zero {F : FloatOps} {o1 o2 : Ent} (h1 : o1.angle = 0) (h2 : o2.angle = 0) :
    overlapW F o1 o2 =
      min (o1.pos.x + o1.size.x) (o2.pos.x + o2.size.x) - max o1.pos.x o2.pos.x := by
  simp [overlapW, overlapX, bbox_zero h1, bbox_zero h2]

theorem overlapH_zero {F : FloatOps} {o1 o2 : Ent} (h1 : o1.angle = 0) (h2 : o2.angle = 0) :
    overlapH F o1 o2 =
      min (o1.pos.y + o1.size.y) (o2.pos.y + o2.size.y) - max o1.pos.y o2.pos.y := by
  simp [overlapH, overlapY, bbox_zero h1, bbox_zero h2]

/-- Claim C1: when the rotated bounding boxes of the two entities do not
overlap (computed overlap width or height is ≤ 0), `check_collision`
returns `false`, whatever the two opacity masks hold: the early return
fires before any mask bit is consulted. -/
theorem c1_disjoint_fast_path (F : FloatOps) (o1 o2 : Ent)
    (m1 m2 : Option (List ℕ)) (s : ℕ)
    (h : overlapW F o1 o2 ≤ 0 ∨ overlapH F o1 o2 ≤ 0) :
    check_collision F { o1 with mask := m1 } { o2 with mask := m2 } s = false := by
  unfold check_collision
  rw [if_pos]
  exact h

theorem c1_witness :
    (overlapW F0 dA dB ≤ 0 ∨ overlapH F0 dA dB ≤ 0) ∧
      check_collision F0 dA dB 1 = false := by
  have h : overlapW F0 dA dB ≤ 0 ∨ overlapH F0 dA dB ≤ 0 := by
    left
    rw [overlapW_zero rfl rfl]
    norm_num [dA, dB, min_def, max_def]
  exact ⟨h, c1_disjoint_fast_path F0 dA dB (some [255, 255]) (some [255, 255]) 1 h⟩



/-- Claim C2: for unrotated entities with no opacity masks,
`check_collision` agrees exactly with the strict axis-aligned overlap
test `ax < bx+bw ∧ ax+aw > bx ∧ ay < by+bh ∧ ay+ah > by` (sizes are
positive by the data-model invariant); touching edges give `false`. -/
theorem c2_unrotated_solid_aabb (F : FloatOps) (o1 o2 : Ent) (s : ℕ)
    (ha1 : o1.angle = 0) (ha2 : o2.angle = 0)
    (hm1 : o1.mask = none) (hm2 : o2.mask = none)
    (hx1 : 0 < o1.size.x) (hy1 : 0 < o1.size.y)
    (hx2 : 0 < o2.size.x) (hy2 : 0 < o2.size.y) :
    check_collision F o1 o2 s =
      decide (o1.pos.x < o2.pos.x + o2.size.x ∧ o1.pos.x + o1.size.x > o2.pos.x ∧
        o1.pos.y < o2.pos.y + o2.size.y ∧ o1.pos.y + o1.size.y > o2.pos.y) := by
  have hw := overlapW_zero (F := F) ha1 ha2
  have hh := overlapH_zero (F := F) ha1 ha2
  unfold check_collision
  by_cases hc : overlapW F o1 o2 ≤ 0 ∨ overlapH F o1 o2 ≤ 0
  · rw [if_pos hc]
    symm
    rw [decide_eq_false_iff_not]
    rintro ⟨p1, p2, p3, p4⟩
    rw [hw, hh] at hc
    rcases hc with hc | hc
    · rcases min_le_iff.mp (by linarith :
          min (o1.pos.x + o1.size.x) (o2.pos.x + o2.size.x) ≤ max o1.pos.x o2.pos.x)
        with h' | h' <;> rcases le_max_iff.mp h' with h'' | h'' <;> linarith
    · rcases min_le_iff.mp (by linarith :
          min (o1.pos.y + o1.size.y) (o2.pos.y + o2.size.y) ≤ max o1.pos.y o2.pos.y)
        with h' | h' <;> rcases le_max_iff.mp h' with h'' | h'' <;> linarith
  · rw [if_neg hc]
    push_neg at hc
    obtain ⟨hw0, hh0⟩ := hc
    rw [hw] at hw0
    rw [hh] at hh0
    rw [if_pos ⟨hm1, hm2⟩, if_neg (by simp [ha1, ha2])]
    symm
    rw [decide_eq_true_eq]
    have a1 := min_le_left (o1.pos.x + o1.size.x) (o2.pos.x + o2.size.x)
    have a2 := min_le_right (o1.pos.x + o1.size.x) (o2.pos.x + o2.size.x)
    have b1 := le_max_left o1.pos.x o2.pos.x
    have b2 := le_max_right o1.pos.x o2.pos.x
    have a3 := min_le_left (o1.pos.y + o1.size.y) (o2.pos.y + o2.size.y)
    have a4 := min_le_right (o1.pos.y + o1.size.y) (o2.pos.y + o2.size.y)
    have b3 := le_max_left o1.pos.y o2.pos.y
    have b4 := le_max_right o1.pos.y o2.pos.y
    exact ⟨by linarith, by linarith, by linarith, by linarith⟩

theorem c2_witness :
    (entA.angle = 0 ∧ entA.mask = none ∧ 0 < entA.size.x) ∧
      check_collision F0 entA entB 1 = true := by
  refine ⟨⟨rfl, rfl, by norm_num [entA]⟩, ?_⟩
  rw [c2_unrotated_solid_aabb F0 entA entB 1 rfl rfl rfl rfl
    (by norm_num [entA]) (by norm_num [entA]) (by norm_num [entB]) (by norm_num [entB])]
  norm_num [entA, entB]



/-- Claim C3 (amended): with no masks and a non-empty rotated
bounding-box overlap, if both rotations are below the small-angle
threshold then `check_collision` returns the strict AABB overlap of the
raw (unrotated) rectangles — which is `true` whenever both rotations
are exactly 0, but may be `false` for small nonzero rotations, because
the margin-inflated rotated bounding boxes can overlap while the raw
rectangles do not. -/
theorem c3_small_angle_amended (F : FloatOps) (o1 o2 : Ent) (s : ℕ)
    (hm1 : o1.mask = none) (hm2 : o2.mask = none)
    (ha1 : |o1.angle| < 5/100) (ha2 : |o2.angle| < 5/100)
    (hw0 : 0 < overlapW F o1 o2) (hh0 : 0 < overlapH F o1 o2) :
    check_collision F o1 o2 s =
      decide (o1.pos.x < o2.pos.x + o2.size.x ∧ o1.pos.x + o1.size.x > o2.pos.x ∧
        o1.pos.y < o2.pos.y + o2.size.y ∧ o1.pos.y + o1.size.y > o2.pos.y) := by
  unfold check_collision
  rw [if_neg (by push_neg; exact ⟨hw0, hh0⟩), if_pos ⟨hm1, hm2⟩]
  by_cases hr : o1.angle ≠ 0 ∨ o2.angle ≠ 0
  · rw [if_pos hr]
    unfold check_rotated_rectangle_collision
    rw [if_pos ⟨ha1, ha2⟩, Bool.eq_iff_iff]
    simp only [Bool.and_eq_true, decide_eq_true_eq]
    tauto
  · rw [if_neg hr]
    push_neg at hr
    obtain ⟨h1, h2⟩ := hr
    rw [overlapW_zero h1 h2] at hw0
    rw [overlapH_zero h1 h2] at hh0
    symm
    rw [decide_eq_true_eq]
    have a1 := min_le_left (o1.pos.x + o1.size.x) (o2.pos.x + o2.size.x)
    have a2 := min_le_right (o1.pos.x + o1.size.x) (o2.pos.x + o2.size.x)
    have b1 := le_max_left o1.pos.x o2.pos.x
    have b2 := le_max_right o1.pos.x o2.pos.x
    have a3 := min_le_left (o1.pos.y + o1.size.y) (o2.pos.y + o2.size.y)
    have a4 := min_le_right (o1.pos.y + o1.size.y) (o2.pos.y + o2.size.y)
    have b3 := le_max_left o1.pos.y o2.pos.y
    have b4 := le_max_right o1.pos.y o2.pos.y
    exact ⟨by linarith, by linarith, by linarith, by linarith⟩

theorem cB_overlapW : overlapW F1 entA cB = 599/4000 := by
  norm_num [overlapW, overlapX, bbox, entA, cB, F1, calculate_rotated_bounding_box,
    rotate_point, normalize_angle, fmod, ratTrunc, PI32, min_def, max_def]

theorem cB_overlapH : overlapH F1 entA cB = 10 := by
  norm_num [overlapH, overlapY, bbox, entA, cB, F1, calculate_rotated_bounding_box,
    rotate_point, normalize_angle, fmod, ratTrunc, PI32, min_def, max_def]

theorem c3_counterexample :
    (entA.mask = none ∧ cB.mask = none ∧
      |entA.angle| < 5/100 ∧ |cB.angle| < 5/100 ∧
      0 < overlapW F1 entA cB ∧ 0 < overlapH F1 entA cB) ∧
      check_collision F1 entA cB 1 = false := by
  refine ⟨⟨rfl, rfl, by norm_num [entA], by norm_num [cB, abs_lt], by rw [cB_overlapW]; norm_num,
    by rw [cB_overlapH]; norm_num⟩, ?_⟩
  unfold check_collision
  rw [if_neg (by push_neg; rw [cB_overlapW, cB_overlapH]; norm_num)]
  rw [if_pos ⟨rfl, rfl⟩, if_pos (Or.inr (by norm_num [cB]))]
  unfold check_rotated_rectangle_collision
  rw [if_pos ⟨by norm_num [entA], by norm_num [cB, abs_lt]⟩]
  norm_num [entA, cB]



theorem entAB_overlapW : overlapW F0 entA entB = 5 := by
  rw [overlapW_zero rfl rfl]
  norm_num [entA, entB, min_def, max_def]

theorem entAB_overlapH : overlapH F0 entA entB = 5 := by
  rw [overlapH_zero rfl rfl]
  norm_num [entA, entB, min_def, max_def]

theorem c3_witness : check_collision F0 entA entB 3 = true := by
  rw [c3_small_angle_amended F0 entA entB 3 rfl rfl (by norm_num [entA])
    (by norm_num [entB]) (by rw [entAB_overlapW]; norm_num)
    (by rw [entAB_overlapH]; norm_num)]
  norm_num [entA, entB]

theorem normPI2 : normalize_angle (2 * PI32) = 0 := by
  norm_num [normalize_angle, fmod, ratTrunc, PI32]

theorem normPI2neg : normalize_angle (-(2 * PI32)) = 0 := by
  norm_num [normalize_angle, fmod, ratTrunc, PI32, Int.ceil_neg, Int.floor_one]

theorem rotate_point_normalized_zero {F : FloatOps} {θ : ℚ} (p c : V2)
    (hθ : ¬θ = 0) (hn : normalize_angle θ = 0)
    (hc : F.cos 0 = 1) (hs : F.sin 0 = 0) :
    rotate_point F p c θ = p := by
  obtain ⟨px, py⟩ := p
  obtain ⟨cx, cy⟩ := c
  unfold rotate_point
  rw [if_neg hθ]
  simp only [hn, hc, hs, V2.mk.injEq]
  constructor <;> ring

/-- Claim C4 (amended): rotation normalization is periodic at the
geometry level — at rotation `2π` (the exact f32 constant) the
normalized angle is 0 and `rotate_point` is the identity, exactly as at
rotation 0 — but `check_collision` itself may differ between the two
poses, because a nonzero angle selects the rotation-aware path whose
bounding box carries the 2% margin and therefore samples a shifted
pixel grid (see the counterexample). -/
theorem c4_rotation_period_amended (F : FloatOps) (p c : V2)
    (hc : F.cos 0 = 1) (hs : F.sin 0 = 0) :
    normalize_angle (2 * PI32) = 0 ∧
      rotate_point F p c (2 * PI32) = p ∧ rotate_point F p c 0 = p :=
  ⟨normPI2,
    rotate_point_normalized_zero p c (by norm_num [PI32]) normPI2 hc hs,
    by simp [rotate_point]⟩

theorem c4_witness :
    normalize_angle (2 * PI32) = 0 ∧
      rotate_point F0 ⟨3, 4⟩ ⟨1, 2⟩ (2 * PI32) = ⟨3, 4⟩ ∧
      rotate_point F0 ⟨3, 4⟩ ⟨1, 2⟩ 0 = ⟨3, 4⟩ :=
  c4_rotation_period_amended F0 ⟨3, 4⟩ ⟨1, 2⟩ rfl rfl

theorem mAmB_overlapX : overlapX F0 mA mB = 0 := by
  norm_num [overlapX, bbox, calculate_rotated_bounding_box, mA, mB, min_def, max_def]

theorem mAmB_overlapY : overlapY F0 mA mB = 0 := by
  norm_num [overlapY, bbox, calculate_rotated_bounding_box, mA, mB, min_def, max_def]

theorem mAmB_overlapW : overlapW F0 mA mB = 3 := by
  norm_num [overlapW, overlapX, bbox, calculate_rotated_bounding_box, mA, mB,
    min_def, max_def]

theorem mAmB_overlapH : overlapH F0 mA mB = 3 := by
  norm_num [overlapH, overlapY, bbox, calculate_rotated_bounding_box, mA, mB,
    min_def, max_def]

theorem strided_three : strided 3 1 = [0, 1, 2] := rfl

theorem toUsize_three : toUsize (3:ℚ) = 3 := by
  unfold toUsize
  rw [show ⌊(3:ℚ)⌋ = 3 from by norm_num]
  decide

theorem mAmB_collision_true : check_collision F0 mA mB 1 = true := by
  unfold check_collision
  rw [mAmB_overlapX, mAmB_overlapY, mAmB_overlapW, mAmB_overlapH]
  rw [if_neg (by norm_num), if_neg (by simp [mA]), if_neg (by simp [mA, mB])]
  show (match mA.mask, mB.mask with
    | some m1, none => check_one_masked_collision mA.pos mA.size mA.texture_size m1
        mB.pos mB.size 0 0 3 3 1
    | none, some m2 => check_one_masked_collision mB.pos mB.size mB.texture_size m2
        mA.pos mA.size 0 0 3 3 1
    | some m1, some m2 => bothMaskedScan mA.pos mA.size mA.texture_size m1
        mB.pos mB.size mB.texture_size m2 0 0 3 3 1
    | none, none => false) = true
  show check_one_masked_collision mA.pos mA.size mA.texture_size [0, 32]
    mB.pos mB.size 0 0 3 3 1 = true
  unfold check_one_masked_collision parScan
  rw [toUsize_three, strided_three]
  rw [List.any_eq_true]
  refine ⟨2, by decide, ?_⟩
  rw [List.any_eq_true]
  refine ⟨2, by decide, ?_⟩
  norm_num [oneMaskedTest, calc_tex_coord, toUsize, is_mask_bit_set,
    is_point_in_bounds, mA, mB, Nat.shiftRight_eq_div_pow, min_def, max_def]
  decide



theorem toUsize_308 : toUsize ((77:ℚ)/25) = 3 := by
  unfold toUsize
  rw [show ⌊(77:ℚ)/25⌋ = 3 from by norm_num]
  decide

theorem mA2PI_collision_false :
    check_collision F0 { mA with angle := 2 * PI32 } mB 1 = false := by
  have hne : ¬(2 * PI32 : ℚ) = 0 := by norm_num [PI32]
  have hrot : ∀ p : V2, rotate_point F0 p ⟨2, 2⟩ (2 * PI32) = p := fun p =>
    rotate_point_normalized_zero p _ hne normPI2 rfl rfl
  have hrotneg : ∀ p : V2, rotate_point F0 p ⟨2, 2⟩ (-(2 * PI32)) = p := fun p =>
    rotate_point_normalized_zero p _ (by norm_num [PI32]) normPI2neg rfl rfl
  have hbox : bbox F0 { mA with angle := 2 * PI32 } =
      (⟨-2/25, -2/25⟩, ⟨104/25, 104/25⟩) := by
    norm_num [bbox, mA, calculate_rotated_bounding_box, hne, hrot, min_def, max_def]
  have hox : overlapX F0 { mA with angle := 2 * PI32 } mB = -2/25 := by
    simp only [overlapX, hbox]
    norm_num [bbox, mB, calculate_rotated_bounding_box, min_def, max_def]
  have hoy : overlapY F0 { mA with angle := 2 * PI32 } mB = -2/25 := by
    simp only [overlapY, hbox]
    norm_num [bbox, mB, calculate_rotated_bounding_box, min_def, max_def]
  have how : overlapW F0 { mA with angle := 2 * PI32 } mB = 77/25 := by
    simp only [overlapW, overlapX, hbox]
    norm_num [bbox, mB, calculate_rotated_bounding_box, min_def, max_def]
  have hoh : overlapH F0 { mA with angle := 2 * PI32 } mB = 77/25 := by
    simp only [overlapH, overlapY, hbox]
    norm_num [bbox, mB, calculate_rotated_bounding_box, min_def, max_def]
  unfold check_collision
  rw [hox, hoy, how, hoh]
  rw [if_neg (by norm_num), if_neg (by simp [mA]), if_pos (Or.inl hne)]
  unfold check_rotated_pixel_collision
  norm_num only [mA, mB, entCenter]
  unfold check_one_rotated_masked_collision parScan
  rw [toUsize_308]
  rw [show strided 3 1 = [0, 1, 2] from rfl]
  rw [List.any_eq_false]
  intro y hy
  rw [Bool.not_eq_true, List.any_eq_false]
  intro x hx
  rw [Bool.not_eq_true]
  have hpt : ∀ a b : ℕ, a ∈ ([0, 1, 2] : List ℕ) → b ∈ ([0, 1, 2] : List ℕ) →
      oneRotatedMaskedTest F0 ⟨0, 0⟩ ⟨4, 4⟩ ⟨4, 4⟩ [0, 32] (2 * PI32) ⟨2, 2⟩
        ⟨-1, -1⟩ ⟨4, 4⟩ 0 ⟨1, 1⟩ (-(2/25)) (-(2/25)) a b = false := by
    intro a b ha hb
    have hrot0 : ∀ p c : V2, rotate_point F0 p c (-0) = p := by
      intro p c
      simp [rotate_point]
    simp only [List.mem_cons, List.not_mem_nil, or_false] at ha hb
    rcases ha with rfl | rfl | rfl <;> rcases hb with rfl | rfl | rfl <;>
      · simp only [oneRotatedMaskedTest, hrotneg, hrot0]
        norm_num [calc_tex_coord, toUsize, is_mask_bit_set, is_point_in_bounds,
          Nat.shiftRight_eq_div_pow, min_def, max_def] <;> decide
  exact hpt x y hx hy

theorem c4_counterexample :
    check_collision F0 mA mB 1 = true ∧
      check_collision F0 { mA with angle := 2 * PI32 } mB 1 = false ∧
      F0.cos 0 = 1 ∧ F0.sin 0 = 0 :=
  ⟨mAmB_collision_true, mA2PI_collision_false, rfl, rfl⟩



theorem crpc_mono {F : FloatOps} {o1 o2 : Ent} {ox oy ow oh : ℚ} {s : ℕ}
    (h : check_rotated_pixel_collision F o1 o2 ox oy ow oh s = true) :
    check_rotated_pixel_collision F o1 o2 ox oy ow oh 1 = true := by
  unfold check_rotated_pixel_collision at h ⊢
  rcases hm1 : o1.mask with _ | m1 <;> rcases hm2 : o2.mask with _ | m2 <;>
    rw [hm1, hm2] at h
  · exact h
  · exact parScan_mono h
  · exact parScan_mono h
  · exact parScan_mono h

/-- Claim C5: a collision reported at any stride `s ≥ 1` is also
reported at the exhaustive stride 1 — the points sampled at stride `s`
are a subset of those sampled at stride 1, so sparse sampling can
under-detect but never over-detect. -/
theorem c5_stride_mono (F : FloatOps) (o1 o2 : Ent) (s : ℕ) (hs : 1 ≤ s)
    (h : check_collision F o1 o2 s = true) : check_collision F o1 o2 1 = true := by
  unfold check_collision at h ⊢
  by_cases hc : overlapW F o1 o2 ≤ 0 ∨ overlapH F o1 o2 ≤ 0
  · rw [if_pos hc] at h
    exact absurd h (by simp)
  · rw [if_neg hc] at h ⊢
    by_cases hm : o1.mask = none ∧ o2.mask = none
    · rw [if_pos hm] at h ⊢
      exact h
    · rw [if_neg hm] at h ⊢
      by_cases hr : o1.angle ≠ 0 ∨ o2.angle ≠ 0
      · rw [if_pos hr] at h ⊢
        exact crpc_mono h
      · rw [if_neg hr] at h ⊢
        rcases hm1 : o1.mask with _ | m1 <;> rcases hm2 : o2.mask with _ | m2 <;>
          rw [hm1, hm2] at h
        · exact h
        · exact parScan_mono h
        · exact parScan_mono h
        · exact parScan_mono h

theorem entAB_true (s : ℕ) : check_collision F0 entA entB s = true := by
  unfold check_collision
  rw [entAB_overlapW, entAB_overlapH, if_neg (by norm_num), if_pos ⟨rfl, rfl⟩,
    if_neg (by simp [entA, entB])]

theorem c5_witness :
    1 ≤ 2 ∧ check_collision F0 entA entB 2 = true ∧
      check_collision F0 entA entB 1 = true :=
  ⟨by norm_num, entAB_true 2, c5_stride_mono F0 entA entB 2 (by norm_num) (entAB_true 2)⟩



/-- Claim C6: `is_mask_bit_set` returns `none` exactly when the byte
index `idx/8` falls outside the mask, otherwise `some` of bit
`7 - idx%8` (MSB first) of byte `idx/8`; combined with the
`unwrap_or(false)` at every call site (`Option.getD false` in this
embedding), an out-of-range index reads as non-opaque and can never by
itself produce a collision. -/
theorem c6_mask_bit (mask : List ℕ) (idx : ℕ) :
    (is_mask_bit_set mask idx = none ↔ mask.length ≤ idx / 8) ∧
    (idx / 8 < mask.length →
      is_mask_bit_set mask idx = some ((mask.getD (idx / 8) 0).testBit (7 - idx % 8))) ∧
    (mask.length ≤ idx / 8 → (is_mask_bit_set mask idx).getD false = false) := by
  unfold is_mask_bit_set
  refine ⟨?_, ?_, ?_⟩
  · by_cases h : mask.length ≤ idx / 8 <;> simp [h]
  · intro h
    rw [if_neg (by omega)]
    simp only [Option.some.injEq]
    rw [Bool.eq_iff_iff]
    simp [Nat.and_one_is_mod, Nat.shiftRight_eq_div_pow, Nat.testBit_to_div_mod]
  · intro h
    rw [if_pos h]
    rfl

theorem c6_witness :
    is_mask_bit_set [160] 2 = some true ∧
      (is_mask_bit_set [160] 99).getD false = false := by
  constructor
  · rw [(c6_mask_bit [160] 2).2.1 (by decide)]
    decide
  · exact (c6_mask_bit [160] 99).2.2 (by decide)

theorem satGeneral_symm (c1 c2 a1 a2 : List V2) :
    ((a1 ++ a2).all fun ax => !hasGap ax c1 c2) =
      ((a2 ++ a1).all fun ax => !hasGap ax c2 c1) := by
  have hg : ∀ ax : V2, hasGap ax c2 c1 = hasGap ax c1 c2 := fun ax => by
    unfold hasGap
    rw [Bool.or_comm]
  have hswap : ∀ l : List V2,
      (l.all fun ax => !hasGap ax c2 c1) = (l.all fun ax => !hasGap ax c1 c2) := by
    intro l
    induction l with
    | nil => rfl
    | cons a l ih => rw [List.all_cons, List.all_cons, ih, hg]
  rw [List.all_append, List.all_append, hswap, hswap, Bool.and_comm]

/-- Claim C7: the SAT routine is symmetric in its two rectangles, for
all rotation values — on the small-angle fast path the four strict
inequalities permute, and on the general path the swapped call tests
the same set of axes with the roles of the two corner lists exchanged
inside a symmetric gap test. -/
theorem c7_sat_symmetric (F : FloatOps) (pos1 size1 : V2) (angle1 : ℚ)
    (pos2 size2 : V2) (angle2 : ℚ) :
    check_rotated_rectangle_collision F pos1 size1 angle1 pos2 size2 angle2 =
      check_rotated_rectangle_collision F pos2 size2 angle2 pos1 size1 angle1 := by
  simp only [check_rotated_rectangle_collision]
  by_cases hc : |angle1| < 5/100 ∧ |angle2| < 5/100
  · rw [if_pos hc, if_pos ⟨hc.2, hc.1⟩, Bool.eq_iff_iff]
    simp only [Bool.and_eq_true, decide_eq_true_eq, gt_iff_lt]
    tauto
  · rw [if_neg hc, if_neg (fun hx => hc ⟨hx.2, hx.1⟩)]
    exact satGeneral_symm (rectCorners F pos1 size1 angle1) (rectCorners F pos2 size2 angle2)
      (axesFrom F (rectCorners F pos1 size1 angle1)) (axesFrom F (rectCorners F pos2 size2 angle2))

/-- Claim C8: for identical inputs, the data-parallel (rayon
`into_par_iter().any`) form and the sequential nested-loop (wasm32)
form of every pixel scan return the same boolean: the one-masked
scanner, the one-rotated-masked scanner, the rotated both-masked scan,
and the both-masked scan inside `check_collision`. -/
theorem c8_par_eq_seq :
    (∀ mp ms mt mask op os ox oy ow oh s,
      check_one_masked_collision_seq mp ms mt mask op os ox oy ow oh s =
        check_one_masked_collision mp ms mt mask op os ox oy ow oh s) ∧
    (∀ F mp ms mt mask ma mc op os oa oc ox oy ow oh s,
      check_one_rotated_masked_collision_seq F mp ms mt mask ma mc op os oa oc ox oy ow oh s =
        check_one_rotated_masked_collision F mp ms mt mask ma mc op os oa oc ox oy ow oh s) ∧
    (∀ F p1 s1 t1 m1 a1 c1 p2 s2 t2 m2 a2 c2 ox oy ow oh s,
      rotatedBothMaskedScan_seq F p1 s1 t1 m1 a1 c1 p2 s2 t2 m2 a2 c2 ox oy ow oh s =
        rotatedBothMaskedScan F p1 s1 t1 m1 a1 c1 p2 s2 t2 m2 a2 c2 ox oy ow oh s) ∧
    (∀ p1 s1 t1 m1 p2 s2 t2 m2 ox oy ow oh s,
      bothMaskedScan_seq p1 s1 t1 m1 p2 s2 t2 m2 ox oy ow oh s =
        bothMaskedScan p1 s1 t1 m1 p2 s2 t2 m2 ox oy ow oh s) := by
  refine ⟨?_, ?_, ?_, ?_⟩ <;> intros <;> apply seqScan_eq_parScan



theorem crpcOpt_eq {F : FloatOps} {o1 o2 : Ent} {ox oy ow oh : ℚ} {s : ℕ}
    (hs0 : s ≠ 0) :
    check_rotated_pixel_collisionOpt F o1 o2 ox oy ow oh s =
      some (check_rotated_pixel_collision F o1 o2 ox oy ow oh s) := by
  unfold check_rotated_pixel_collisionOpt check_rotated_pixel_collision
  rcases o1.mask with _ | m1 <;> rcases o2.mask with _ | m2
  · rfl
  · simp [check_one_rotated_masked_collisionOpt, check_one_rotated_masked_collision,
      parScanOpt, hs0]
  · simp [check_one_rotated_masked_collisionOpt, check_one_rotated_masked_collision,
      parScanOpt, hs0]
  · simp [parScanOpt, hs0, rotatedBothMaskedScan]

theorem mAmB_opt_none : check_collisionOpt F0 mA mB 0 = none := by
  unfold check_collisionOpt
  rw [mAmB_overlapX, mAmB_overlapY, mAmB_overlapW, mAmB_overlapH]
  rw [if_neg (by norm_num), if_neg (by simp [mA]), if_neg (by simp [mA, mB])]
  show check_one_masked_collisionOpt mA.pos mA.size mA.texture_size [0, 32]
    mB.pos mB.size 0 0 3 3 0 = none
  simp [check_one_masked_collisionOpt, parScanOpt]

/-- Claim C9: for a positive stride, `check_collision` is total and
`check_collisionOpt` (which makes the `step_by` zero-stride panic
explicit) returns `some` of the same boolean; with stride 0 a
pixel-scanning path aborts, so the `skip_pixels ≥ 1` caller
precondition is exactly what makes the panic branch unreachable. -/
theorem c9_stride_totality :
    (∀ (F : FloatOps) (o1 o2 : Ent) (s : ℕ), 1 ≤ s →
      check_collisionOpt F o1 o2 s = some (check_collision F o1 o2 s)) ∧
      check_collisionOpt F0 mA mB 0 = none := by
  refine ⟨?_, mAmB_opt_none⟩
  intro F o1 o2 s hs
  have hs0 : s ≠ 0 := by omega
  unfold check_collisionOpt check_collision
  by_cases hc : overlapW F o1 o2 ≤ 0 ∨ overlapH F o1 o2 ≤ 0
  · rw [if_pos hc, if_pos hc]
  · rw [if_neg hc, if_neg hc]
    by_cases hm : o1.mask = none ∧ o2.mask = none
    · rw [if_pos hm, if_pos hm]
      by_cases hr : o1.angle ≠ 0 ∨ o2.angle ≠ 0
      · rw [if_pos hr, if_pos hr]
      · rw [if_neg hr, if_neg hr]
    · rw [if_neg hm, if_neg hm]
      by_cases hr : o1.angle ≠ 0 ∨ o2.angle ≠ 0
      · rw [if_pos hr, if_pos hr]
        exact crpcOpt_eq hs0
      · rw [if_neg hr, if_neg hr]
        rcases o1.mask with _ | m1 <;> rcases o2.mask with _ | m2
        · rfl
        · simp [check_one_masked_collisionOpt, check_one_masked_collision,
            parScanOpt, hs0]
        · simp [check_one_masked_collisionOpt, check_one_masked_collision,
            parScanOpt, hs0]
        · simp [parScanOpt, hs0, bothMaskedScan]

theorem c9_witness :
    check_collisionOpt F0 entA entB 1 = some (check_collision F0 entA entB 1) :=
  c9_stride_totality.1 F0 entA entB 1 (by norm_num)

/-- Claim C10: when at least one entity carries a mask (so dispatch
reaches a pixel scan) and the bounding-box overlap is non-empty but its
width or height lies strictly below 1, the integer iteration range is
empty and `check_collision` returns `false` — sub-pixel-thin overlaps
are never reported by the masked paths. -/
theorem c10_subpixel_overlap (F : FloatOps) (o1 o2 : Ent) (s : ℕ)
    (hm : o1.mask ≠ none ∨ o2.mask ≠ none)
    (hw0 : 0 < overlapW F o1 o2) (hh0 : 0 < overlapH F o1 o2)
    (hlt : overlapW F o1 o2 < 1 ∨ overlapH F o1 o2 < 1) :
    check_collision F o1 o2 s = false := by
  have hmm : ¬(o1.mask = none ∧ o2.mask = none) := by
    rintro ⟨h1, h2⟩
    rcases hm with hm | hm
    · exact hm h1
    · exact hm h2
  have hscan : ∀ P, parScan (overlapW F o1 o2) (overlapH F o1 o2) s P = false := by
    intro P
    rcases hlt with hlt | hlt
    · exact parScan_w_lt_one hlt
    · exact parScan_h_lt_one hlt
  unfold check_collision
  rw [if_neg (by push_neg; exact ⟨hw0, hh0⟩), if_neg hmm]
  by_cases hr : o1.angle ≠ 0 ∨ o2.angle ≠ 0
  · rw [if_pos hr]
    unfold check_rotated_pixel_collision
    rcases hm1 : o1.mask with _ | m1 <;> rcases hm2 : o2.mask with _ | m2
    · exact absurd ⟨hm1, hm2⟩ hmm
    · exact hscan _
    · exact hscan _
    · exact hscan _
  · rw [if_neg hr]
    rcases hm1 : o1.mask with _ | m1 <;> rcases hm2 : o2.mask with _ | m2
    · exact absurd ⟨hm1, hm2⟩ hmm
    · exact hscan _
    · exact hscan _
    · exact hscan _

theorem c10_witness :
    dA.mask ≠ none ∧ overlapW F0 dA tB = 1/2 ∧ overlapH F0 dA tB = 4 ∧
      check_collision F0 dA tB 1 = false := by
  have hw : overlapW F0 dA tB = 1/2 := by
    rw [overlapW_zero rfl rfl]
    norm_num [dA, tB, min_def, max_def]
  have hh : overlapH F0 dA tB = 4 := by
    rw [overlapH_zero rfl rfl]
    norm_num [dA, tB, min_def, max_def]
  refine ⟨by simp [dA], hw, hh,
    c10_subpixel_overlap F0 dA tB 1 (Or.inl (by simp [dA])) ?_ ?_ (Or.inl ?_)⟩
  · rw [hw]
    norm_num
  · rw [hh]
    norm_num
  · rw [hw]
    norm_num

end Collision
